import Mathlib

/-!
Verification of the PMD (pool metadata) engine of mpool-kmod, shallowly
embedded from `src/pmd.c`.  Machine integers are modelled as `Nat`/`Int`;
the quantities involved (object counts, generations, zone counts) stay far
below 2^64 in every state the claims touch, so wraparound is not modelled.
External collaborators (MDC log append, SMAP, ECIO) are modelled as oracles:
explicit outcome parameters consumed in program order, exactly where the C
code consults their return values.
-/

namespace Mpool

/-- Error kinds returned through `merr_t`.  The C code returns `merr(errno)`;
only the errno matters to control flow, so errors are this enumeration. -/
inductive Err where
  | EINVAL | ENOENT | EEXIST | ENOSPC | ENOMEM | EFBIG
  | EBADSLT | EOPNOTSUPP | EBUSY | EIO
deriving DecidableEq, Repr

/-- `MDC_SLOTS` from pmd.h (spec §3: fixed-size vector of 256 slots). -/
def MDC_SLOTS : Nat := 256

/-- `OBJID_UNIQ_DELTA` (spec §4.5: checkpoint granularity of 256). -/
def OBJID_UNIQ_DELTA : Nat := 256

/-- `MDC_TBL_SZ` selector table size (spec §4.5: recommend 16384). -/
def MDC_TBL_SZ : Nat := 16384

/-- `MP_MED_NUMBER`: number of media classes (staging, capacity). -/
def MP_MED_NUMBER : Nat := 2

/-- `MPOOL_MDC_COMPACT_RETRY_DEFAULT` (spec §4.D: recommend 3). -/
def MPOOL_MDC_COMPACT_RETRY_DEFAULT : Nat := 3

/-- Object types of `enum obj_type_omf`.  Modelled from the spec: the header
is not under src/; only distinctness and the user/non-user split matter. -/
def OMF_OBJ_UNDEF : Nat := 0

def OMF_OBJ_MBLOCK : Nat := 1

def OMF_OBJ_MLOG : Nat := 2

def OMF_OBJ_MDC : Nat := 3

/-- `objtype_user`: mblocks and mlogs are the user-visible object types.
Modelled from the spec (§4.E argument validation). -/
def objtype_user (otype : Nat) : Bool :=
  otype = OMF_OBJ_MBLOCK || otype = OMF_OBJ_MLOG

/-! ### Object-id encoding

Modelled from the spec (§3): 64-bit ids with fields `uniq|type|slot`,
slot in the low 8 bits (256 MDC slots), a 4-bit type, uniq above. -/

/-- `objid_make(uniq, type, slot)`. -/
def objid_make (uniq otype slot : Nat) : Nat :=
  uniq * 4096 + otype * 256 + slot

/-- `objid_slot`: low 8 bits. -/
def objid_slot (objid : Nat) : Nat := objid % 256

/-- `objid_type`: 4 bits above the slot. -/
def objid_type (objid : Nat) : Nat := objid / 256 % 16

/-- `objid_uniq`: bits above type and slot. -/
def objid_uniq (objid : Nat) : Nat := objid / 4096

/-- `objid_ckpt(id)`: the uniq is a multiple of `OBJID_UNIQ_DELTA`. -/
def objid_ckpt (objid : Nat) : Bool :=
  objid_uniq objid % OBJID_UNIQ_DELTA = 0

/-- `logid_make(n, slot)`: MDC mlog ids; MDCi's paired logs carry uniq values
`2*i` and `2*i+1` (spec §3). -/
def logid_make (uniq slot : Nat) : Nat :=
  objid_make uniq OMF_OBJ_MLOG slot

/-- `objid_mdc0log`: one of MDC0's own two mlogs, i.e. a slot-0 id with
uniq 0 or 1.  Modelled from the spec (§3, §4.D step 4). -/
def objid_mdc0log (objid : Nat) : Bool :=
  objid_slot objid = 0 && objid_uniq objid < 2

/-- `mlog_objid` / `mblock_objid`. -/
def mlog_objid (objid : Nat) : Bool := objid_type objid = OMF_OBJ_MLOG

def mblock_objid (objid : Nat) : Bool := objid_type objid = OMF_OBJ_MBLOCK

/-- `pmd_objid_isuser`: user type and a non-zero slot. -/
def pmd_objid_isuser (objid : Nat) : Bool :=
  objtype_user (objid_type objid) && objid_slot objid ≠ 0

/-! ### Layout state

`eld_state` is a bitset over `{UNCOMMITTED, COMMITTED, REMOVED}` (spec §3).
The code only assigns whole values, ors single bits in, clears single bits
and tests single bits, so the bitset is modelled as a record of flags. -/

structure LytState where
  uncommitted : Bool
  committed   : Bool
  removed     : Bool
deriving DecidableEq, Repr

/-- `eld_state = ECIO_LYT_UNCOMMITTED` (whole-value assignment). -/
def lytUncommitted : LytState := ⟨true, false, false⟩

/-- `eld_state = ECIO_LYT_COMMITTED` (whole-value assignment). -/
def lytCommitted : LytState := ⟨false, true, false⟩

/-- `struct ecio_layout_descriptor`, the fields PMD reads and writes. -/
structure Layout where
  eld_objid  : Nat
  eld_gen    : Nat
  eld_mblen  : Nat
  eld_zcnt   : Nat
  eld_pdh    : Nat
  eld_zaddr  : Nat
  eld_state  : LytState
  eld_refcnt : Nat
  eld_isdel  : Bool
deriving DecidableEq, Repr

/-! ### The committed / uncommitted object trees

The red-black trees keyed by objid (`mmi_obj`, `mmi_uncobj`) are embedded
as strictly-sorted association lists; `rb_first`/`rb_next` iteration is
list order. -/

/-- `objid_to_layout_search_mdc`: find the layout with the given objid. -/
def objid_to_layout_search_mdc : List Layout → Nat → Option Layout
  | [], _ => none
  | l :: ls, objid =>
      if l.eld_objid = objid then some l
      else objid_to_layout_search_mdc ls objid

/-- `objid_to_layout_insert_mdc`: insert keeping the list sorted; if the key
already exists return the resident layout and leave the tree unchanged
(first component `some found`), else insert and return `none`. -/
def objid_to_layout_insert_mdc : List Layout → Layout → Option Layout × List Layout
  | [], x => (none, [x])
  | l :: ls, x =>
      if x.eld_objid < l.eld_objid then (none, x :: l :: ls)
      else if x.eld_objid = l.eld_objid then (some l, l :: ls)
      else
        let r := objid_to_layout_insert_mdc ls x
        (r.1, l :: r.2)

/-- `rb_erase` of the node found for `objid` (removes the first match). -/
def objid_to_layout_erase_mdc : List Layout → Nat → List Layout
  | [], _ => []
  | l :: ls, objid =>
      if l.eld_objid = objid then ls
      else l :: objid_to_layout_erase_mdc ls objid

/-- In-place `layout->eld_gen = gen` of the resident layout for `objid`. -/
def mdcSetGen (m : List Layout) (objid gen : Nat) : List Layout :=
  m.map fun l => if l.eld_objid = objid then { l with eld_gen := gen } else l

/-! ### Per-slot counters and stats -/

/-- `struct pre_compact_ctrs` (atomic_t fields; `Int`, wrap unmodelled). -/
structure PcoCnt where
  pcc_cr   : Int
  pcc_up   : Int
  pcc_del  : Int
  pcc_er   : Int
  pcc_cobj : Int
deriving DecidableEq, Repr

/-- `struct pmd_mdc_stats` (u64 fields; `Int`, wrap unmodelled). -/
structure MdcStats where
  pms_mblock_alen : Int
  pms_mblock_wlen : Int
  pms_mlog_alen   : Int
  pms_mblock_cnt  : Int
  pms_mlog_cnt    : Int
deriving DecidableEq, Repr

/-- The per-slot fields of `struct pmd_mdc_info` that the claims touch. -/
structure MdcInfo where
  mmi_obj     : List Layout
  mmi_uncobj  : List Layout
  mmi_luniq   : Nat
  mmi_lckpt   : Nat
  mmi_mdccver : Nat
  mmi_pco_cnt : PcoCnt
  mmi_stats   : MdcStats
deriving DecidableEq, Repr

/-! ### MDC records

`struct omf_mdcrec_data` as it travels through pack/append/read/unpack;
the OMF codec round-trips these, so records are modelled directly. -/

inductive MdcRec where
  | version  (v : Nat)
  | ocreate  (l : Layout)
  | odelete  (objid : Nat)
  | oidckpt  (objid : Nat)
  | oerase   (objid : Nat) (gen : Nat)
  | oupdate  (l : Layout)
  | mcconfig (pdh : Nat)
  | mcspare  (mclassp spzone : Nat)
  | mpconfig
deriving DecidableEq, Repr

/-- `omf_mdcrec_isobj_le`: object-related record kinds. -/
def mdcrec_isobj : MdcRec → Bool
  | .ocreate _ | .odelete _ | .oidckpt _ | .oerase _ _ | .oupdate _ => true
  | _ => false

/-! ## C  Append path: `pmd_mdc_addrec`

`pmd_mdc_addrec` appends with sync; iff the append fails with `EFBIG` it
runs `pmd_mdc_compact` for the slot and, iff that compaction succeeded,
retries the append exactly once.  The two appends and the compaction are
oracles; the outcome records how many appends ran and whether the
compactor was invoked. -/

structure AddrecOut where
  result   : Option Err
  appends  : Nat
  compacts : Nat
deriving DecidableEq, Repr

/-- `pmd_mdc_addrec`, with `append1`/`append2` the outcomes of the first and
(potential) retried `pmd_mdc_append` and `compact` the outcome of
`pmd_mdc_compact`.  `none` is success. -/
def pmd_mdc_addrec (append1 compact append2 : Option Err) : AddrecOut :=
  match append1 with
  | none => ⟨none, 1, 0⟩
  | some e =>
      if e = Err.EFBIG then
        match compact with
        | none => ⟨append2, 2, 1⟩
        | some ce => ⟨some ce, 1, 1⟩
      else ⟨some e, 1, 0⟩

/-! ## H  Activation replay: the record loop of `pmd_objs_load`

The read loop of `pmd_objs_load` (pmd.c lines 870-1038) applied to the
sequence of records read from MDCi.  `latest` is `upg_mdccver_latest()`,
ordered as a single number (only the ordering of versions matters). -/

/-- One iteration of the `pmd_objs_load` read loop on one unpacked record. -/
def pmd_objs_load_rec (latest cslot : Nat) (cinfo : MdcInfo) :
    MdcRec → Except Err MdcInfo
  | .version v =>
      -- store the content version; fail if newer than the binary supports
      if v > latest then .error Err.EOPNOTSUPP
      else .ok { cinfo with mmi_mdccver := v }
  | .mcconfig _ | .mcspare _ _ | .mpconfig =>
      -- property records: skipped in MDC0, and fall through every object
      -- branch (no effect) in MDCi
      .ok cinfo
  | .ocreate l =>
      if objid_slot l.eld_objid ≠ cslot then .error Err.EBADSLT
      else
        let l2 := { l with eld_state := lytCommitted }
        match objid_to_layout_insert_mdc cinfo.mmi_obj l2 with
        | (some _, _) => .error Err.EEXIST
        | (none, m) =>
            .ok { cinfo with
                    mmi_obj := m
                    mmi_pco_cnt := { cinfo.mmi_pco_cnt with
                      pcc_cr := cinfo.mmi_pco_cnt.pcc_cr + 1
                      pcc_cobj := cinfo.mmi_pco_cnt.pcc_cobj + 1 } }
  | .odelete objid =>
      if objid_slot objid ≠ cslot then .error Err.EBADSLT
      else
        match objid_to_layout_search_mdc cinfo.mmi_obj objid with
        | none => .error Err.ENOENT
        | some _ =>
            .ok { cinfo with
                    mmi_obj := objid_to_layout_erase_mdc cinfo.mmi_obj objid
                    mmi_pco_cnt := { cinfo.mmi_pco_cnt with
                      pcc_del := cinfo.mmi_pco_cnt.pcc_del + 1
                      pcc_cobj := cinfo.mmi_pco_cnt.pcc_cobj - 1 } }
  | .oidckpt objid =>
      if objid_slot objid ≠ cslot then .error Err.EBADSLT
      else
        -- objid == mmi_lckpt == 0 is legit (upgrade of an empty mpool)
        if (objid_uniq objid ≠ 0 || objid_uniq cinfo.mmi_lckpt ≠ 0)
            && objid_uniq objid ≤ objid_uniq cinfo.mmi_lckpt then
          .error Err.EINVAL
        else .ok { cinfo with mmi_lckpt := objid }
  | .oerase objid gen =>
      if objid_slot objid ≠ cslot then .error Err.EBADSLT
      else
        match objid_to_layout_search_mdc cinfo.mmi_obj objid with
        | none => .error Err.ENOENT
        | some l =>
            -- OERASE gen can equal layout gen after a compaction
            if gen < l.eld_gen then .error Err.EINVAL
            else
              .ok { cinfo with
                      mmi_obj := mdcSetGen cinfo.mmi_obj objid gen
                      mmi_pco_cnt := { cinfo.mmi_pco_cnt with
                        pcc_er := cinfo.mmi_pco_cnt.pcc_er + 1 } }
  | .oupdate l =>
      if objid_slot l.eld_objid ≠ cslot then .error Err.EBADSLT
      else
        match objid_to_layout_search_mdc cinfo.mmi_obj l.eld_objid with
        | none => .error Err.ENOENT
        | some _ =>
            let m1 := objid_to_layout_erase_mdc cinfo.mmi_obj l.eld_objid
            let l2 := { l with eld_state := lytCommitted }
            .ok { cinfo with
                    mmi_obj := (objid_to_layout_insert_mdc m1 l2).2
                    mmi_pco_cnt := { cinfo.mmi_pco_cnt with
                      pcc_up := cinfo.mmi_pco_cnt.pcc_up + 1 } }

/-- The whole read loop: replay the records in log order, stopping at the
first failure. -/
def pmd_objs_load_recs (latest cslot : Nat) :
    List MdcRec → MdcInfo → Except Err MdcInfo
  | [], cinfo => .ok cinfo
  | r :: rs, cinfo =>
      match pmd_objs_load_rec latest cslot cinfo r with
      | .error e => .error e
      | .ok cinfo2 => pmd_objs_load_recs latest cslot rs cinfo2

/-! Spec-side net effect for claim C1, written from the claim's words: each
OCREATE inserts its layout (duplicate fatal), each ODELETE removes the
layout (missing fatal), each OUPDATE replaces the layout for its objid,
and (per the companion spec sentence settled as C4) an accepted OERASE
updates the resident layout's gen; other records leave the map alone.
Layouts entering the committed map are committed by construction. -/

/-- Net effect of one record on the committed map, per the claim. -/
def net_effect_rec (m : List Layout) : MdcRec → Except Err (List Layout)
  | .ocreate l =>
      match objid_to_layout_insert_mdc m { l with eld_state := lytCommitted } with
      | (some _, _) => .error Err.EEXIST
      | (none, m2) => .ok m2
  | .odelete objid =>
      match objid_to_layout_search_mdc m objid with
      | none => .error Err.ENOENT
      | some _ => .ok (objid_to_layout_erase_mdc m objid)
  | .oupdate l =>
      match objid_to_layout_search_mdc m l.eld_objid with
      | none => .error Err.ENOENT
      | some _ =>
          .ok ((objid_to_layout_insert_mdc
                  (objid_to_layout_erase_mdc m l.eld_objid)
                  { l with eld_state := lytCommitted }).2)
  | .oerase objid gen => .ok (mdcSetGen m objid gen)
  | _ => .ok m

/-- Net effect of a record sequence in log order. -/
def net_effect : List MdcRec → List Layout → Except Err (List Layout)
  | [], m => .ok m
  | r :: rs, m =>
      match net_effect_rec m r with
      | .error e => .error e
      | .ok m2 => net_effect rs m2

/-- `true` iff an `Except` carries a success. -/
def exceptIsOk {α : Type} : Except Err α → Bool
  | .ok _ => true
  | .error _ => false

/-! ## Theorems about replay (claims C1 and C4) -/

theorem search_mdcSetGen (m : List Layout) (objid gen : Nat) (l : Layout)
    (h : objid_to_layout_search_mdc m objid = some l) :
    objid_to_layout_search_mdc (mdcSetGen m objid gen) objid
      = some { l with eld_gen := gen } := by
  induction m with
  | nil => simp [objid_to_layout_search_mdc] at h
  | cons x xs ih =>
      simp only [objid_to_layout_search_mdc] at h
      by_cases hx : x.eld_objid = objid
      · simp only [hx, if_pos rfl] at h
        cases h
        simp [mdcSetGen, objid_to_layout_search_mdc, hx]
      · simp only [hx, if_neg hx] at h
        have := ih h
        simp only [mdcSetGen, List.map_cons] at this ⊢
        simpa [objid_to_layout_search_mdc, hx] using this

theorem pmd_objs_load_rec_net (latest cslot : Nat) (cinfo cinfo' : MdcInfo)
    (r : MdcRec)
    (h : pmd_objs_load_rec latest cslot cinfo r = .ok cinfo') :
    net_effect_rec cinfo.mmi_obj r = .ok cinfo'.mmi_obj := by
  cases r <;> simp only [pmd_objs_load_rec, net_effect_rec] at h ⊢ <;>
    (try split at h) <;> (try split at h) <;> (try split at h) <;>
    (try simp_all) <;> (try subst h) <;> simp_all

/-- Claim C1 — For every slot `i` and every record sequence replayed by
`pmd_objs_load(i)`, the committed map after a successful replay equals the
net effect of applying the records in log order: each OCREATE inserts its
layout (a duplicate objid is a fatal replay error, by contraposition),
each ODELETE removes the layout (a missing objid is a fatal replay error),
and each OUPDATE replaces the layout for its objid. -/
theorem objs_load_committed_eq_net_effect (latest cslot : Nat)
    (recs : List MdcRec) (cinfo cinfo' : MdcInfo)
    (h : pmd_objs_load_recs latest cslot recs cinfo = .ok cinfo') :
    net_effect recs cinfo.mmi_obj = .ok cinfo'.mmi_obj := by
  induction recs generalizing cinfo with
  | nil =>
      simp only [pmd_objs_load_recs] at h
      cases h
      rfl
  | cons r rs ih =>
      simp only [pmd_objs_load_recs] at h
      cases hr : pmd_objs_load_rec latest cslot cinfo r with
      | error e => rw [hr] at h; cases h
      | ok cinfo2 =>
          rw [hr] at h
          have hnet := pmd_objs_load_rec_net latest cslot cinfo cinfo2 r hr
          simp only [net_effect, hnet]
          exact ih cinfo2 h

/-- A concrete replay exercising create, delete, erase and update. -/
def c1LayoutA : Layout :=
  ⟨objid_make 1 OMF_OBJ_MBLOCK 1, 0, 0, 1, 0, 0, lytUncommitted, 2, false⟩

def c1LayoutB : Layout :=
  ⟨objid_make 2 OMF_OBJ_MLOG 1, 3, 0, 1, 0, 0, lytUncommitted, 2, false⟩

def c1Recs : List MdcRec :=
  [.ocreate c1LayoutA, .ocreate c1LayoutB, .odelete c1LayoutA.eld_objid,
   .oerase c1LayoutB.eld_objid 7, .oupdate { c1LayoutB with eld_gen := 9 }]

def c1Cinfo : MdcInfo :=
  ⟨[], [], 0, 0, 0, ⟨0, 0, 0, 0, 0⟩, ⟨0, 0, 0, 0, 0⟩⟩

theorem objs_load_committed_eq_net_effect_witness :
    net_effect c1Recs c1Cinfo.mmi_obj
      = .ok ((pmd_objs_load_recs 1 1 c1Recs c1Cinfo).toOption.getD c1Cinfo).mmi_obj :=
  objs_load_committed_eq_net_effect 1 1 c1Recs c1Cinfo
    ((pmd_objs_load_recs 1 1 c1Recs c1Cinfo).toOption.getD c1Cinfo) (by rfl)

/-- Layout at gen 5 targeted by the C4 counterexample. -/
def c4Layout : Layout :=
  ⟨objid_make 1 OMF_OBJ_MLOG 1, 5, 0, 1, 0, 0, lytCommitted, 2, false⟩

def c4Cinfo : MdcInfo :=
  ⟨[c4Layout], [], 0, 0, 0, ⟨0, 0, 0, 0, 0⟩, ⟨0, 0, 0, 0, 0⟩⟩

/-- Claim C4, counterexample — an OERASE record whose gen equals the gen of
the layout it refers to is accepted by replay (the code only rejects a
strictly smaller gen; the comment notes OERASE gen can equal the layout gen
after a compaction), refuting "gen less than or equal ... fails the
replay". -/
theorem oerase_equal_gen_accepted :
    exceptIsOk
      (pmd_objs_load_recs 0 1 [.oerase c4Layout.eld_objid 5] c4Cinfo) = true :=
  by rfl

/-- Claim C4, amended — during replay, an OERASE record whose gen is
strictly less than the gen of the layout it refers to is invalid and fails
the replay; an OERASE with gen at least the layout's gen is accepted and
updates the layout's gen to the record's gen, so the layout's gen never
decreases across replayed records. -/
theorem objs_load_oerase_gen_monotone (latest cslot objid gen : Nat)
    (cinfo : MdcInfo) (l : Layout)
    (hslot : objid_slot objid = cslot)
    (hfound : objid_to_layout_search_mdc cinfo.mmi_obj objid = some l) :
    (gen < l.eld_gen →
       pmd_objs_load_rec latest cslot cinfo (.oerase objid gen)
         = .error Err.EINVAL)
    ∧ (l.eld_gen ≤ gen →
       ∃ cinfo2,
         pmd_objs_load_rec latest cslot cinfo (.oerase objid gen) = .ok cinfo2
         ∧ objid_to_layout_search_mdc cinfo2.mmi_obj objid
             = some { l with eld_gen := gen }) := by
  constructor
  · intro hlt
    simp [pmd_objs_load_rec, hslot, hfound, hlt]
  · intro hge
    refine ⟨{ cinfo with
                mmi_obj := mdcSetGen cinfo.mmi_obj objid gen
                mmi_pco_cnt := { cinfo.mmi_pco_cnt with
                  pcc_er := cinfo.mmi_pco_cnt.pcc_er + 1 } }, ?_, ?_⟩
    · simp [pmd_objs_load_rec, hslot, hfound, Nat.not_lt.mpr hge]
    · simpa using search_mdcSetGen cinfo.mmi_obj objid gen l hfound

theorem objs_load_oerase_gen_monotone_witness :
    ∃ cinfo2,
      pmd_objs_load_rec 0 1 c4Cinfo (.oerase c4Layout.eld_objid 7)
        = .ok cinfo2
      ∧ objid_to_layout_search_mdc cinfo2.mmi_obj c4Layout.eld_objid
          = some { c4Layout with eld_gen := 7 } :=
  (objs_load_oerase_gen_monotone 0 1 c4Layout.eld_objid 7 c4Cinfo c4Layout
     (by rfl) (by rfl)).2 (by decide)

/-- Claim C6 — through `pmd_mdc_addrec`, an append failing with the
dedicated log-full kind `EFBIG` invokes the slot's compactor and, when the
compaction succeeds, retries the append exactly once, returning the
retry's outcome; a failed compaction's error, a non-`EFBIG` error of the
first append, and any error of the retry are returned without further
retries or compactions. -/
theorem mdc_addrec_log_full_retry (append1 compact append2 : Option Err) :
    (append1 = some Err.EFBIG →
       (compact = none →
          pmd_mdc_addrec append1 compact append2 = ⟨append2, 2, 1⟩)
       ∧ (∀ ce, compact = some ce →
          pmd_mdc_addrec append1 compact append2 = ⟨some ce, 1, 1⟩))
    ∧ (∀ e, append1 = some e → e ≠ Err.EFBIG →
       pmd_mdc_addrec append1 compact append2 = ⟨some e, 1, 0⟩)
    ∧ (append1 = none →
       pmd_mdc_addrec append1 compact append2 = ⟨none, 1, 0⟩) := by
  refine ⟨?_, ?_, ?_⟩
  · rintro rfl
    exact ⟨fun h => by simp [pmd_mdc_addrec, h],
           fun ce h => by simp [pmd_mdc_addrec, h]⟩
  · rintro e rfl hne
    simp [pmd_mdc_addrec, hne]
  · rintro rfl
    simp [pmd_mdc_addrec]

theorem mdc_addrec_log_full_retry_witness :
    pmd_mdc_addrec (some Err.EFBIG) none (some Err.EIO)
      = ⟨some Err.EIO, 2, 1⟩ :=
  ((mdc_addrec_log_full_retry (some Err.EFBIG) none (some Err.EIO)).1
     rfl).1 rfl

/-! ## E  Object lifecycle: stats, commit and delete -/

inductive PmdObjOp where
  | PMD_OBJ_LOAD | PMD_OBJ_ALLOC | PMD_OBJ_COMMIT | PMD_OBJ_ABORT
  | PMD_OBJ_DELETE
deriving DecidableEq, Repr

/-- `ecio_obj_get_cap_from_layout`.  Modelled from the spec (external ECIO
size query): the byte capacity spanned by the layout's zones; the byte
factor per zone is immaterial to the claims (only that equal layouts have
equal capacity), one 4096-byte page per zone is used. -/
def ecio_obj_get_cap_from_layout (layout : Layout) : Int :=
  (layout.eld_zcnt : Int) * 4096

/-- `pmd_update_mdc_stats` — updates space usage and object counts; the C
function can only return 0, so it is the pure stats update (including the
deliberate fall-throughs LOAD→ALLOC and DELETE→ABORT). -/
def pmd_update_mdc_stats (layout : Layout) (pms : MdcStats) (op : PmdObjOp) :
    MdcStats :=
  let otype := objid_type layout.eld_objid
  let cap := ecio_obj_get_cap_from_layout layout
  match op with
  | .PMD_OBJ_LOAD =>
      let pms1 :=
        if otype = OMF_OBJ_MBLOCK then
          { pms with pms_mblock_wlen := pms.pms_mblock_wlen + layout.eld_mblen }
        else pms
      if otype = OMF_OBJ_MLOG then
        { pms1 with pms_mlog_cnt := pms1.pms_mlog_cnt + 1
                    pms_mlog_alen := pms1.pms_mlog_alen + cap }
      else if otype = OMF_OBJ_MBLOCK then
        { pms1 with pms_mblock_cnt := pms1.pms_mblock_cnt + 1
                    pms_mblock_alen := pms1.pms_mblock_alen + cap }
      else pms1
  | .PMD_OBJ_ALLOC =>
      if otype = OMF_OBJ_MLOG then
        { pms with pms_mlog_cnt := pms.pms_mlog_cnt + 1
                   pms_mlog_alen := pms.pms_mlog_alen + cap }
      else if otype = OMF_OBJ_MBLOCK then
        { pms with pms_mblock_cnt := pms.pms_mblock_cnt + 1
                   pms_mblock_alen := pms.pms_mblock_alen + cap }
      else pms
  | .PMD_OBJ_COMMIT =>
      if otype = OMF_OBJ_MBLOCK then
        { pms with pms_mblock_wlen := pms.pms_mblock_wlen + layout.eld_mblen }
      else pms
  | .PMD_OBJ_DELETE =>
      let pms1 :=
        if otype = OMF_OBJ_MBLOCK then
          { pms with pms_mblock_wlen := pms.pms_mblock_wlen - layout.eld_mblen }
        else pms
      if otype = OMF_OBJ_MLOG then
        { pms1 with pms_mlog_cnt := pms1.pms_mlog_cnt - 1
                    pms_mlog_alen := pms1.pms_mlog_alen - cap }
      else if otype = OMF_OBJ_MBLOCK then
        { pms1 with pms_mblock_cnt := pms1.pms_mblock_cnt - 1
                    pms_mblock_alen := pms1.pms_mblock_alen - cap }
      else pms1
  | .PMD_OBJ_ABORT =>
      if otype = OMF_OBJ_MLOG then
        { pms with pms_mlog_cnt := pms.pms_mlog_cnt - 1
                   pms_mlog_alen := pms.pms_mlog_alen - cap }
      else if otype = OMF_OBJ_MBLOCK then
        { pms with pms_mblock_cnt := pms.pms_mblock_cnt - 1
                   pms_mblock_alen := pms.pms_mblock_alen - cap }
      else pms

/-- Result of `pmd_obj_commit` / `pmd_obj_delete_impl`: outcome, the layout
as left in memory, the slot state, and the records appended to the log. -/
structure ObjOpOut where
  result   : Option Err
  layout   : Layout
  cinfo    : MdcInfo
  appended : List MdcRec
deriving DecidableEq, Repr

/-- `pmd_obj_commit` with `logCreate` the outcome of the `pmd_log_create`
append. -/
def pmd_obj_commit (layout : Layout) (cinfo : MdcInfo)
    (logCreate : Option Err) : ObjOpOut :=
  if ¬ objtype_user (objid_type layout.eld_objid) then
    ⟨some Err.EINVAL, layout, cinfo, []⟩
  else if layout.eld_state.committed then
    -- already committed: idempotent success, nothing logged or changed
    ⟨none, layout, cinfo, []⟩
  else
    match logCreate with
    | some e => ⟨some e, layout, cinfo, []⟩
    | none =>
        let layout1 :=
          { layout with eld_state := { layout.eld_state with committed := true } }
        let unco1 :=
          match objid_to_layout_search_mdc cinfo.mmi_uncobj layout.eld_objid with
          | some _ => objid_to_layout_erase_mdc cinfo.mmi_uncobj layout.eld_objid
          | none => cinfo.mmi_uncobj
        match objid_to_layout_insert_mdc cinfo.mmi_obj layout1 with
        | (some _, _) =>
            -- duplicate in the committed tree: fatal internal error; put the
            -- layout back in the uncommitted tree
            ⟨some Err.EEXIST, layout1,
             { cinfo with
                 mmi_uncobj := (objid_to_layout_insert_mdc unco1 layout1).2 },
             [.ocreate layout]⟩
        | (none, m) =>
            ⟨none, layout1,
             { cinfo with
                 mmi_obj := m
                 mmi_uncobj := unco1
                 mmi_pco_cnt := { cinfo.mmi_pco_cnt with
                   pcc_cr := cinfo.mmi_pco_cnt.pcc_cr + 1
                   pcc_cobj := cinfo.mmi_pco_cnt.pcc_cobj + 1 }
                 mmi_stats := pmd_update_mdc_stats layout1 cinfo.mmi_stats
                                .PMD_OBJ_COMMIT },
             [.ocreate layout]⟩

/-- `pmd_obj_delete_impl` with `logDelete` the outcome of the
`pmd_log_delete` append. -/
def pmd_obj_delete_impl (layout : Layout) (cinfo : MdcInfo)
    (logDelete : Option Err) : ObjOpOut :=
  if ¬ objtype_user (objid_type layout.eld_objid)
      || ¬ layout.eld_state.committed || layout.eld_state.removed then
    ⟨some Err.EINVAL, layout, cinfo, []⟩
  else if layout.eld_isdel || decide (2 < layout.eld_refcnt) then
    ⟨some (if layout.eld_isdel then Err.EINVAL else Err.EBUSY),
     layout, cinfo, []⟩
  else
    let objid := layout.eld_objid
    let layout1 :=
      { layout with
          eld_refcnt := 0
          eld_isdel := true
          eld_state := { layout.eld_state with removed := true } }
    match logDelete with
    | none =>
        match objid_to_layout_search_mdc cinfo.mmi_obj objid with
        | some _ =>
            ⟨none, layout1,
             { cinfo with
                 mmi_obj := objid_to_layout_erase_mdc cinfo.mmi_obj objid
                 mmi_pco_cnt := { cinfo.mmi_pco_cnt with
                   pcc_cobj := cinfo.mmi_pco_cnt.pcc_cobj - 1
                   pcc_del := cinfo.mmi_pco_cnt.pcc_del + 1 }
                 mmi_stats := pmd_update_mdc_stats layout1 cinfo.mmi_stats
                                .PMD_OBJ_DELETE },
             [.odelete objid]⟩
        | none =>
            ⟨none, layout1,
             { cinfo with
                 mmi_pco_cnt := { cinfo.mmi_pco_cnt with
                   pcc_del := cinfo.mmi_pco_cnt.pcc_del + 1 } },
             [.odelete objid]⟩
    | some e =>
        -- legal to delete, but the delete record could not be logged:
        -- roll the flags back (refcnt is set to the constant 2)
        ⟨some e,
         { layout1 with
             eld_refcnt := 2
             eld_isdel := false
             eld_state := { layout1.eld_state with removed := false } },
         cinfo, []⟩

/-- Claim C8 — `pmd_obj_commit` on a (user-type) layout whose state already
has the COMMITTED bit set returns success without appending any record to
the log and without changing the layout, the committed or uncommitted
maps, the stats or the counters; hence committing twice is
indistinguishable from committing once. -/
theorem obj_commit_idempotent (layout : Layout) (cinfo : MdcInfo)
    (logCreate : Option Err)
    (huser : objtype_user (objid_type layout.eld_objid) = true)
    (hcom : layout.eld_state.committed = true) :
    pmd_obj_commit layout cinfo logCreate = ⟨none, layout, cinfo, []⟩ := by
  simp [pmd_obj_commit, huser, hcom]

/-- A committed mblock layout used by the C8 witness. -/
def c8Layout : Layout :=
  ⟨objid_make 1 OMF_OBJ_MBLOCK 1, 0, 100, 1, 0, 0, lytCommitted, 2, false⟩

theorem obj_commit_idempotent_witness :
    pmd_obj_commit c8Layout c1Cinfo (some Err.EFBIG)
      = ⟨none, c8Layout, c1Cinfo, []⟩ :=
  obj_commit_idempotent c8Layout c1Cinfo (some Err.EFBIG) (by rfl) (by rfl)

/-- Committed, never-referenced mblock layout (refcnt 0) for the C5
counterexample: its guards pass `pmd_obj_delete_impl`, yet the rollback
path writes the constant 2 into `eld_refcnt`. -/
def c5Layout : Layout :=
  ⟨objid_make 1 OMF_OBJ_MBLOCK 1, 0, 100, 1, 0, 0, lytCommitted, 0, false⟩

/-- Claim C5, counterexample — when the ODELETE append fails, the rollback
in `pmd_obj_delete_impl` sets `eld_refcnt` to the constant 2 rather than
restoring the value held before the call: entering with refcnt 0 (accepted
by the guard, which only rejects refcnt > 2) leaves refcnt 2 behind, so
the in-memory state is not restored exactly. -/
theorem obj_delete_rollback_refcnt_not_restored :
    (pmd_obj_delete_impl c5Layout c1Cinfo (some Err.EIO)).layout.eld_refcnt = 2
    ∧ c5Layout.eld_refcnt = 0 :=
  ⟨by rfl, by rfl⟩

/-- Claim C5, amended — if the ODELETE log append fails inside obj_delete
(after the layout was marked deleted and removed), the error is returned
and the in-memory state is rolled back: isdel and the REMOVED state bit
are cleared, the layout stays in the committed map, no stats or
pre-compaction counters change, no record is appended, and `eld_refcnt` is
set to 2 — the reference count a normal caller holds — rather than to its
exact prior value, so for callers entering with refcnt 2 the state is
restored exactly as it was before the call. -/
theorem obj_delete_append_failure_rollback (layout : Layout) (cinfo : MdcInfo)
    (e : Err)
    (huser : objtype_user (objid_type layout.eld_objid) = true)
    (hcom : layout.eld_state.committed = true)
    (hrem : layout.eld_state.removed = false)
    (hdel : layout.eld_isdel = false)
    (href : layout.eld_refcnt ≤ 2) :
    pmd_obj_delete_impl layout cinfo (some e)
      = ⟨some e, { layout with eld_refcnt := 2 }, cinfo, []⟩ := by
  obtain ⟨oid, gen, mblen, zcnt, pdh, zaddr, st, refcnt, isdel⟩ := layout
  obtain ⟨su, sc, sr⟩ := st
  simp only at huser hcom hrem hdel href
  subst hrem hdel
  simp [pmd_obj_delete_impl, huser, hcom, Nat.not_lt.mpr href]

theorem obj_delete_append_failure_rollback_witness :
    pmd_obj_delete_impl c8Layout c1Cinfo (some Err.EIO)
      = ⟨some Err.EIO, { c8Layout with eld_refcnt := 2 }, c1Cinfo, []⟩ :=
  obj_delete_append_failure_rollback c8Layout c1Cinfo Err.EIO
    (by rfl) (by rfl) (by rfl) (by rfl) (by decide)

/-! ## D  Compaction engine: `pmd_mdc_compact` and its callees

The new active mlog's content is the list of records appended between
`cstart` and `cend`.  Appends consume outcomes of an oracle indexed in
append order.  The VERSION record goes through `pmd_mdc_addrec` in the C
code; on a freshly cstarted log that append cannot return `EFBIG`, so it
is modelled as a single append. -/

/-- A device as `pmd_log_mdc0_cobjs` sees it. -/
structure PmdDev where
  pdh     : Nat
  defunct : Bool
deriving DecidableEq, Repr

/-- A media class as `pmd_log_mdc0_cobjs` sees it. -/
structure MediaClass where
  mc_pdmc     : Int
  mcp_classp  : Nat
  mcsp_spzone : Nat
deriving DecidableEq, Repr

/-- `mclassp_valid`. -/
def mclassp_valid (mclassp : Nat) : Bool := mclassp < MP_MED_NUMBER

/-- Append a list of records in order, consuming one oracle outcome each;
returns the appended records and the next oracle index. -/
def appendList (ap : Nat → Option Err) (idx : Nat) :
    List MdcRec → Except Err (List MdcRec × Nat)
  | [] => .ok ([], idx)
  | r :: rs =>
      match ap idx with
      | some e => .error e
      | none =>
          match appendList ap (idx + 1) rs with
          | .error e => .error e
          | .ok (out, idx2) => .ok (r :: out, idx2)

/-- The MCSPARE records of `pmd_log_mdc0_cobjs`, one per media class with a
device, with `pmd_prop_mcspare`'s argument check. -/
def mcspareRecs : List MediaClass → Except Err (List MdcRec)
  | [] => .ok []
  | mc :: mcs =>
      if 0 ≤ mc.mc_pdmc then
        if ¬ mclassp_valid mc.mcp_classp || 100 < mc.mcsp_spzone then
          .error Err.EINVAL
        else
          match mcspareRecs mcs with
          | .error e => .error e
          | .ok rs => .ok (.mcspare mc.mcp_classp mc.mcsp_spzone :: rs)
      else mcspareRecs mcs

/-- The records `pmd_log_mdc0_cobjs` writes: one MCCONFIG per non-defunct
drive, one MCSPARE per populated media class, one MPCONFIG. -/
def mdc0PropRecs (devs : List PmdDev) (mcs : List MediaClass) :
    Except Err (List MdcRec) :=
  match mcspareRecs mcs with
  | .error e => .error e
  | .ok sp =>
      .ok ((devs.filter (fun d => !d.defunct)).map (fun d => .mcconfig d.pdh)
           ++ sp ++ [.mpconfig])

/-- `pmd_log_all_mdc_cobjs`: walk the committed tree in objid order; for
each layout whose objid is not an MDC0 mlog objid append an OCREATE.
Returns (records, compacted, total, next oracle index). -/
def pmd_log_all_mdc_cobjs (ap : Nat → Option Err) :
    List Layout → Nat → Except Err (List MdcRec × Nat × Nat × Nat)
  | [], idx => .ok ([], 0, 0, idx)
  | l :: ls, idx =>
      if !objid_mdc0log l.eld_objid then
        match ap idx with
        | some e => .error e
        | none =>
            match pmd_log_all_mdc_cobjs ap ls (idx + 1) with
            | .error e => .error e
            | .ok (rs, compacted, total, idx2) =>
                .ok (.ocreate l :: rs, compacted + 1, total + 1, idx2)
      else
        match pmd_log_all_mdc_cobjs ap ls idx with
        | .error e => .error e
        | .ok (rs, compacted, total, idx2) =>
            .ok (rs, compacted, total + 1, idx2)

/-- Oracle outcomes of one iteration of the compaction retry loop. -/
structure CompactAttemptOracle where
  openErr  : Option Err
  cstart   : Option Err
  append   : Nat → Option Err
  cend     : Option Err

/-- One iteration of `pmd_mdc_compact`'s loop after a successful open:
cstart, VERSION record (when the binary's latest version is at least
1.0.0.1), per-slot prologue, the OCREATEs, cend.  Returns the new active
log's records and the `compacted` counter. -/
def pmd_mdc_compact_attempt (cslot : Nat) (latestGE1001 : Bool) (latest : Nat)
    (cinfo : MdcInfo) (devs : List PmdDev) (mcs : List MediaClass)
    (oc : CompactAttemptOracle) : Except Err (List MdcRec × Nat) :=
  match oc.cstart with
  | some e => .error e
  | none =>
      let verRecs : List MdcRec :=
        if latestGE1001 then [.version latest] else []
      match appendList oc.append 0 verRecs with
      | .error e => .error e
      | .ok (vrs, idx1) =>
          match (if cslot ≠ 0 then .ok [.oidckpt cinfo.mmi_lckpt]
                 else mdc0PropRecs devs mcs : Except Err (List MdcRec)) with
          | .error e => .error e
          | .ok prologue =>
              match appendList oc.append idx1 prologue with
              | .error e => .error e
              | .ok (prs, idx2) =>
                  match pmd_log_all_mdc_cobjs oc.append cinfo.mmi_obj idx2 with
                  | .error e => .error e
                  | .ok (ors, compacted, _total, _idx3) =>
                      match oc.cend with
                      | some e => .error e
                      | none => .ok (vrs ++ prs ++ ors, compacted)

/-- The retry loop of `pmd_mdc_compact`: up to `fuel` iterations; on every
iteration after a failure, re-open the paired log first. -/
def pmd_mdc_compact_loop (cslot : Nat) (latestGE1001 : Bool) (latest : Nat)
    (cinfo : MdcInfo) (devs : List PmdDev) (mcs : List MediaClass)
    (ocs : Nat → CompactAttemptOracle) :
    Nat → Nat → Option Err → Except Err (List MdcRec × Nat)
  | 0, _, prevErr => .error (prevErr.getD Err.EIO)
  | fuel + 1, k, prevErr =>
      let reopenErr : Option Err :=
        if prevErr.isSome then (ocs k).openErr else none
      match reopenErr with
      | some e =>
          pmd_mdc_compact_loop cslot latestGE1001 latest cinfo devs mcs ocs
            fuel (k + 1) (some e)
      | none =>
          match pmd_mdc_compact_attempt cslot latestGE1001 latest cinfo devs
              mcs (ocs k) with
          | .ok res => .ok res
          | .error e =>
              pmd_mdc_compact_loop cslot latestGE1001 latest cinfo devs mcs ocs
                fuel (k + 1) (some e)

/-- `pmd_pre_compact_reset`, called on MDCi i>0 after a successful
compaction. -/
def pmd_pre_compact_reset (compacted : Nat) : PcoCnt :=
  ⟨compacted, 0, 0, 0, compacted⟩

/-- `pmd_mdc_compact`: the retry loop with
`MPOOL_MDC_COMPACT_RETRY_DEFAULT` iterations, followed for i>0 by the
pre-compaction counter reset.  On success returns the new active log's
records, the `compacted` count and the slot's counters. -/
def pmd_mdc_compact (cslot : Nat) (latestGE1001 : Bool) (latest : Nat)
    (cinfo : MdcInfo) (devs : List PmdDev) (mcs : List MediaClass)
    (ocs : Nat → CompactAttemptOracle) :
    Except Err (List MdcRec × Nat × PcoCnt) :=
  match pmd_mdc_compact_loop cslot latestGE1001 latest cinfo devs mcs ocs
      MPOOL_MDC_COMPACT_RETRY_DEFAULT 0 none with
  | .error e => .error e
  | .ok (recs, compacted) =>
      .ok (recs, compacted,
           if cslot ≠ 0 then pmd_pre_compact_reset compacted
           else cinfo.mmi_pco_cnt)

/-! ## Theorems about compaction (claims C2 and C9) -/

theorem appendList_ok (ap : Nat → Option Err) (rs : List MdcRec) :
    ∀ (idx : Nat) (out : List MdcRec × Nat),
      appendList ap idx rs = .ok out → out.1 = rs := by
  induction rs with
  | nil =>
      intro idx out h
      simp only [appendList, Except.ok.injEq] at h
      subst h
      rfl
  | cons r rs ih =>
      intro idx out h
      simp only [appendList] at h
      cases hap : ap idx with
      | some e => simp only [hap] at h; exact Except.noConfusion h
      | none =>
          simp only [hap] at h
          cases hrec : appendList ap (idx + 1) rs with
          | error e => simp only [hrec] at h; exact Except.noConfusion h
          | ok out2 =>
              obtain ⟨o2, i2⟩ := out2
              simp only [hrec, Except.ok.injEq] at h
              subst h
              simpa using ih (idx + 1) (o2, i2) hrec

/-- The committed-tree predicate used throughout compaction. -/
def notMdc0log (l : Layout) : Bool := !objid_mdc0log l.eld_objid

theorem pmd_log_all_mdc_cobjs_ok (ap : Nat → Option Err) :
    ∀ (ls : List Layout) (idx : Nat) (out : List MdcRec × Nat × Nat × Nat),
      pmd_log_all_mdc_cobjs ap ls idx = .ok out →
      out.1 = (ls.filter notMdc0log).map MdcRec.ocreate
      ∧ out.2.1 = (ls.filter notMdc0log).length
      ∧ out.2.2.1 = ls.length := by
  intro ls
  induction ls with
  | nil =>
      intro idx out h
      simp only [pmd_log_all_mdc_cobjs, Except.ok.injEq] at h
      subst h
      simp
  | cons l ls ih =>
      intro idx out h
      simp only [pmd_log_all_mdc_cobjs] at h
      by_cases hm : objid_mdc0log l.eld_objid
      · rw [if_neg (by simp [hm])] at h
        cases hrec : pmd_log_all_mdc_cobjs ap ls idx with
        | error e => simp only [hrec] at h; exact Except.noConfusion h
        | ok out2 =>
            obtain ⟨rs2, c2, t2, i2⟩ := out2
            simp only [hrec, Except.ok.injEq] at h
            subst h
            obtain ⟨h1, h2, h3⟩ := ih idx (rs2, c2, t2, i2) hrec
            refine ⟨?_, ?_, ?_⟩
            · simpa [notMdc0log, hm] using h1
            · simpa [notMdc0log, hm] using h2
            · simpa using h3
      · have hmf : objid_mdc0log l.eld_objid = false := Bool.eq_false_iff.mpr hm
        rw [if_pos (by simp [hmf])] at h
        cases hap : ap idx with
        | some e => simp only [hap] at h; exact Except.noConfusion h
        | none =>
            simp only [hap] at h
            cases hrec : pmd_log_all_mdc_cobjs ap ls (idx + 1) with
            | error e => simp only [hrec] at h; exact Except.noConfusion h
            | ok out2 =>
                obtain ⟨rs2, c2, t2, i2⟩ := out2
                simp only [hrec, Except.ok.injEq] at h
                subst h
                obtain ⟨h1, h2, h3⟩ := ih (idx + 1) (rs2, c2, t2, i2) hrec
                refine ⟨?_, ?_, ?_⟩
                · simpa [notMdc0log, hmf] using h1
                · simpa [notMdc0log, hmf] using h2
                · simpa using h3

theorem pmd_mdc_compact_attempt_ok (cslot : Nat) (latestGE1001 : Bool)
    (latest : Nat) (cinfo : MdcInfo) (devs : List PmdDev)
    (mcs : List MediaClass) (oc : CompactAttemptOracle)
    (recs : List MdcRec) (compacted : Nat)
    (h : pmd_mdc_compact_attempt cslot latestGE1001 latest cinfo devs mcs oc
           = .ok (recs, compacted)) :
    ∃ prologue,
      recs = (if latestGE1001 then [MdcRec.version latest] else [])
               ++ prologue ++ (cinfo.mmi_obj.filter notMdc0log).map MdcRec.ocreate
      ∧ (cslot ≠ 0 → prologue = [.oidckpt cinfo.mmi_lckpt])
      ∧ (cslot = 0 → mdc0PropRecs devs mcs = .ok prologue)
      ∧ compacted = (cinfo.mmi_obj.filter notMdc0log).length := by
  simp only [pmd_mdc_compact_attempt] at h
  cases hcs : oc.cstart with
  | some e => simp only [hcs] at h; exact Except.noConfusion h
  | none =>
      simp only [hcs] at h
      cases hv : appendList oc.append 0
          (if latestGE1001 then [MdcRec.version latest] else []) with
      | error e => simp only [hv] at h; exact Except.noConfusion h
      | ok out1 =>
          obtain ⟨vrs, idx1⟩ := out1
          simp only [hv] at h
          have hvrs := appendList_ok oc.append _ 0 (vrs, idx1) hv
          cases hp : (if cslot ≠ 0 then .ok [MdcRec.oidckpt cinfo.mmi_lckpt]
                      else mdc0PropRecs devs mcs : Except Err (List MdcRec)) with
          | error e => simp only [hp] at h; exact Except.noConfusion h
          | ok prologue =>
              simp only [hp] at h
              cases hpr : appendList oc.append idx1 prologue with
              | error e => simp only [hpr] at h; exact Except.noConfusion h
              | ok out2 =>
                  obtain ⟨prs, idx2⟩ := out2
                  simp only [hpr] at h
                  have hprs := appendList_ok oc.append _ idx1 (prs, idx2) hpr
                  cases hall : pmd_log_all_mdc_cobjs oc.append cinfo.mmi_obj
                      idx2 with
                  | error e => simp only [hall] at h; exact Except.noConfusion h
                  | ok out3 =>
                      obtain ⟨ors, c3, t3, i3⟩ := out3
                      simp only [hall] at h
                      have hors := pmd_log_all_mdc_cobjs_ok oc.append
                        cinfo.mmi_obj idx2 (ors, c3, t3, i3) hall
                      cases hce : oc.cend with
                      | some e => simp only [hce] at h; exact Except.noConfusion h
                      | none =>
                          simp only [hce, Except.ok.injEq, Prod.mk.injEq] at h
                          obtain ⟨hrecs, hcomp⟩ := h
                          refine ⟨prologue, ?_, ?_, ?_, ?_⟩
                          · have ho1 : ors
                                = (cinfo.mmi_obj.filter notMdc0log).map
                                    MdcRec.ocreate := hors.1
                            have hv1 : vrs
                                = (if latestGE1001 then [MdcRec.version latest]
                                   else []) := hvrs
                            have hp1 : prs = prologue := hprs
                            rw [← hrecs, hv1, hp1, ho1]
                          · intro hne
                            rw [if_pos hne] at hp
                            cases hp
                            rfl
                          · intro hzero
                            rw [if_neg (by simp [hzero])] at hp
                            rw [hp]
                          · rw [← hcomp]
                            exact hors.2.1

theorem pmd_mdc_compact_loop_ok (cslot : Nat) (latestGE1001 : Bool)
    (latest : Nat) (cinfo : MdcInfo) (devs : List PmdDev)
    (mcs : List MediaClass) (ocs : Nat → CompactAttemptOracle) :
    ∀ (fuel k : Nat) (prevErr : Option Err) (res : List MdcRec × Nat),
      pmd_mdc_compact_loop cslot latestGE1001 latest cinfo devs mcs ocs
        fuel k prevErr = .ok res →
      ∃ k2, pmd_mdc_compact_attempt cslot latestGE1001 latest cinfo devs mcs
              (ocs k2) = .ok res := by
  intro fuel
  induction fuel with
  | zero => intro k prevErr res h; simp [pmd_mdc_compact_loop] at h
  | succ fuel ih =>
      intro k prevErr res h
      simp only [pmd_mdc_compact_loop] at h
      cases hre : (if prevErr.isSome then (ocs k).openErr else none) with
      | some e =>
          simp only [hre] at h
          exact ih (k + 1) (some e) res h
      | none =>
          simp only [hre] at h
          cases hat : pmd_mdc_compact_attempt cslot latestGE1001 latest cinfo
              devs mcs (ocs k) with
          | ok res2 =>
              simp only [hat, Except.ok.injEq] at h
              subst h
              exact ⟨k, hat⟩
          | error e =>
              simp only [hat] at h
              exact ih (k + 1) (some e) res h

/-- `mdc0PropRecs` never produces an OCREATE record. -/
theorem mdc0PropRecs_no_ocreate (devs : List PmdDev) (mcs : List MediaClass)
    (prologue : List MdcRec)
    (h : mdc0PropRecs devs mcs = .ok prologue) :
    ∀ l : Layout, MdcRec.ocreate l ∉ prologue := by
  intro l hmem
  simp only [mdc0PropRecs] at h
  cases hsp : mcspareRecs mcs with
  | error e => simp only [hsp] at h; exact Except.noConfusion h
  | ok sp =>
      simp only [hsp, Except.ok.injEq] at h
      subst h
      have hspare : ∀ (mcs2 : List MediaClass) (sp2 : List MdcRec),
          mcspareRecs mcs2 = .ok sp2 → MdcRec.ocreate l ∉ sp2 := by
        intro mcs2
        induction mcs2 with
        | nil =>
            intro sp2 h2
            simp only [mcspareRecs, Except.ok.injEq] at h2
            subst h2
            simp
        | cons mc mcs2 ih =>
            intro sp2 h2
            simp only [mcspareRecs] at h2
            split at h2
            · split at h2
              · cases h2
              · cases hrec : mcspareRecs mcs2 with
                | error e => simp only [hrec] at h2; exact Except.noConfusion h2
                | ok rs =>
                    simp only [hrec, Except.ok.injEq] at h2
                    subst h2
                    simp [ih rs hrec]
            · exact ih sp2 h2
      simp only [List.mem_append, List.mem_map, List.mem_singleton] at hmem
      rcases hmem with (⟨d, _, hd⟩ | hmem2) | hmp
      · cases hd
      · exact hspare mcs sp hsp hmem2
      · cases hmp

/-- The objid carried by an OCREATE record. -/
def ocreateObjid : MdcRec → Option Nat
  | .ocreate l => some l.eld_objid
  | _ => none

/-- Whether a record is an OCREATE. -/
def isOcreate : MdcRec → Bool
  | .ocreate _ => true
  | _ => false

/-- Claim C2 — for every slot i, a successful compaction writes into the
new active log exactly one OCREATE record per member of slot i's committed
map whose objid is not an MDC0 mlog objid, walking the committed map in
objid order (the OCREATE objids are strictly increasing), and these
OCREATEs are preceded by a VERSION record (the binary's latest version
being at least 1.0.0.1) and, for i>0, one OIDCKPT record carrying lckpt,
or, for i=0, the MCCONFIG/MCSPARE/MPCONFIG property records. -/
theorem mdc_compact_one_ocreate_per_committed (cslot latest : Nat)
    (cinfo : MdcInfo) (devs : List PmdDev) (mcs : List MediaClass)
    (ocs : Nat → CompactAttemptOracle)
    (recs : List MdcRec) (compacted : Nat) (pco2 : PcoCnt)
    (hsorted : cinfo.mmi_obj.Pairwise (fun a b => a.eld_objid < b.eld_objid))
    (h : pmd_mdc_compact cslot true latest cinfo devs mcs ocs
           = .ok (recs, compacted, pco2)) :
    ∃ prologue,
      recs = MdcRec.version latest
               :: (prologue
                   ++ (cinfo.mmi_obj.filter notMdc0log).map MdcRec.ocreate)
      ∧ (cslot ≠ 0 → prologue = [.oidckpt cinfo.mmi_lckpt])
      ∧ (cslot = 0 → mdc0PropRecs devs mcs = .ok prologue)
      ∧ (∀ l ∈ cinfo.mmi_obj, objid_mdc0log l.eld_objid = false →
           recs.count (MdcRec.ocreate l) = 1)
      ∧ (recs.filterMap ocreateObjid).Pairwise (· < ·) := by
  simp only [pmd_mdc_compact] at h
  cases hloop : pmd_mdc_compact_loop cslot true latest cinfo devs mcs ocs
      MPOOL_MDC_COMPACT_RETRY_DEFAULT 0 none with
  | error e => simp only [hloop] at h; exact Except.noConfusion h
  | ok res =>
      obtain ⟨recs0, comp0⟩ := res
      simp only [hloop, Except.ok.injEq, Prod.mk.injEq] at h
      obtain ⟨hr, hc, _⟩ := h
      subst hr hc
      obtain ⟨k2, hat⟩ := pmd_mdc_compact_loop_ok cslot true latest cinfo devs
        mcs ocs MPOOL_MDC_COMPACT_RETRY_DEFAULT 0 none (recs0, comp0) hloop
      obtain ⟨prologue, hrecs, hp1, hp0, _⟩ :=
        pmd_mdc_compact_attempt_ok cslot true latest cinfo devs mcs (ocs k2)
          recs0 comp0 hat
      have hnoc : ∀ l : Layout, MdcRec.ocreate l ∉ prologue := by
        intro l hl
        by_cases hc0 : cslot = 0
        · exact mdc0PropRecs_no_ocreate devs mcs prologue (hp0 hc0) l hl
        · rw [hp1 hc0] at hl
          simp at hl
      have hnodup : (cinfo.mmi_obj.filter notMdc0log).Nodup :=
        (List.Pairwise.filter _
          (hsorted.imp (fun hab => by
            intro heq
            subst heq
            exact absurd hab (lt_irrefl _))))
      refine ⟨prologue, ?_, hp1, hp0, ?_, ?_⟩
      · simpa using hrecs
      · intro l hmem hml
        have hlf : l ∈ cinfo.mmi_obj.filter notMdc0log :=
          List.mem_filter.mpr ⟨hmem, by simp [notMdc0log, hml]⟩
        rw [hrecs]
        rw [if_pos rfl]
        rw [List.count_append, List.count_append]
        have h1 : ([MdcRec.version latest] : List MdcRec).count
            (MdcRec.ocreate l) = 0 := by simp [List.count_eq_zero]
        have h2 : prologue.count (MdcRec.ocreate l) = 0 :=
          List.count_eq_zero.mpr (hnoc l)
        have h3 : ((cinfo.mmi_obj.filter notMdc0log).map MdcRec.ocreate).count
            (MdcRec.ocreate l) = 1 := by
          rw [List.count_map_of_injective _ MdcRec.ocreate
                (fun a b hab => by cases hab; rfl)]
          exact List.count_eq_one_of_mem hnodup hlf
        rw [h1, h2, h3]
      · rw [hrecs, if_pos rfl]
        rw [List.filterMap_append, List.filterMap_append]
        have h1 : ([MdcRec.version latest] : List MdcRec).filterMap
            ocreateObjid = [] := by simp [ocreateObjid]
        have h2 : prologue.filterMap ocreateObjid = [] := by
          rw [List.filterMap_eq_nil_iff]
          intro r hr2
          cases r <;> simp [ocreateObjid]
          case ocreate l => exact absurd hr2 (hnoc l)
        have h3 : ((cinfo.mmi_obj.filter notMdc0log).map MdcRec.ocreate
            ).filterMap ocreateObjid
            = (cinfo.mmi_obj.filter notMdc0log).map Layout.eld_objid := by
          rw [List.filterMap_map]
          have hco : ocreateObjid ∘ MdcRec.ocreate
              = some ∘ Layout.eld_objid := rfl
          rw [hco, List.filterMap_eq_map]
        rw [h1, h2, h3]
        simp only [List.nil_append]
        exact List.pairwise_map.mpr (List.Pairwise.filter _ hsorted)

/-- Sorted two-element committed map of a user slot. -/
def c2Cinfo : MdcInfo :=
  ⟨[c1LayoutA, c1LayoutB], [], 2, 0, 0, ⟨2, 0, 0, 0, 2⟩, ⟨0, 0, 0, 0, 0⟩⟩

/-- All appends, cstart and cend succeed. -/
def c2Ocs : Nat → CompactAttemptOracle :=
  fun _ => ⟨none, none, fun _ => none, none⟩

theorem mdc_compact_one_ocreate_per_committed_witness :
    ([MdcRec.version 5, .oidckpt 0, .ocreate c1LayoutA,
      .ocreate c1LayoutB] : List MdcRec).count (MdcRec.ocreate c1LayoutA) = 1
    ∧ (([MdcRec.version 5, .oidckpt 0, .ocreate c1LayoutA,
         .ocreate c1LayoutB] : List MdcRec).filterMap
          ocreateObjid).Pairwise (· < ·) := by
  obtain ⟨prologue, _, _, _, hcount, hpw⟩ :=
    mdc_compact_one_ocreate_per_committed 1 5 c2Cinfo [] [] c2Ocs
      [MdcRec.version 5, .oidckpt 0, .ocreate c1LayoutA, .ocreate c1LayoutB]
      2 ⟨2, 0, 0, 0, 2⟩ (by decide) (by rfl)
  exact ⟨hcount c1LayoutA (by simp [c2Cinfo]) (by decide), hpw⟩

/-- Claim C9 — immediately after a compaction of any slot completes
successfully, `pcc_cobj` equals the size of that slot's committed map
(for slot 0, whose counters compaction leaves untouched, provided it held
on entry); in particular for i>0 the pre-compaction counters are reset so
that `pcc_cr = pcc_cobj = compacted` = the number of OCREATE records
written by the compaction = the committed-map size, and
`pcc_up = pcc_del = pcc_er = 0`. -/
theorem mdc_compact_pcc_cobj_eq_committed (cslot : Nat) (latestGE1001 : Bool)
    (latest : Nat) (cinfo : MdcInfo) (devs : List PmdDev)
    (mcs : List MediaClass) (ocs : Nat → CompactAttemptOracle)
    (recs : List MdcRec) (compacted : Nat) (pco2 : PcoCnt)
    (hwf : ∀ l ∈ cinfo.mmi_obj, objid_slot l.eld_objid = cslot)
    (hzero : cslot = 0 →
       cinfo.mmi_pco_cnt.pcc_cobj = (cinfo.mmi_obj.length : Int))
    (h : pmd_mdc_compact cslot latestGE1001 latest cinfo devs mcs ocs
           = .ok (recs, compacted, pco2)) :
    pco2.pcc_cobj = (cinfo.mmi_obj.length : Int)
    ∧ (cslot ≠ 0 →
        pco2 = ⟨(compacted : Int), 0, 0, 0, (compacted : Int)⟩
        ∧ compacted = cinfo.mmi_obj.length
        ∧ compacted = recs.countP (fun r => isOcreate r)) := by
  simp only [pmd_mdc_compact] at h
  cases hloop : pmd_mdc_compact_loop cslot latestGE1001 latest cinfo devs mcs
      ocs MPOOL_MDC_COMPACT_RETRY_DEFAULT 0 none with
  | error e => simp only [hloop] at h; exact Except.noConfusion h
  | ok res =>
      obtain ⟨recs0, comp0⟩ := res
      simp only [hloop, Except.ok.injEq, Prod.mk.injEq] at h
      obtain ⟨hr, hc, hpco⟩ := h
      subst hr hc
      obtain ⟨k2, hat⟩ := pmd_mdc_compact_loop_ok cslot latestGE1001 latest
        cinfo devs mcs ocs MPOOL_MDC_COMPACT_RETRY_DEFAULT 0 none
        (recs0, comp0) hloop
      obtain ⟨prologue, hrecs, hp1, _, hcomp⟩ :=
        pmd_mdc_compact_attempt_ok cslot latestGE1001 latest cinfo devs mcs
          (ocs k2) recs0 comp0 hat
      by_cases hc0 : cslot = 0
      · rw [if_neg (by simp [hc0])] at hpco
        subst hpco
        refine ⟨hzero hc0, fun hne => absurd hc0 hne⟩
      · rw [if_pos hc0] at hpco
        subst hpco
        have hall : cinfo.mmi_obj.filter notMdc0log = cinfo.mmi_obj := by
          rw [List.filter_eq_self]
          intro l hl
          have := hwf l hl
          simp [notMdc0log, objid_mdc0log, this, hc0]
        have hlen : comp0 = cinfo.mmi_obj.length := by
          rw [hcomp, hall]
        refine ⟨?_, fun _ => ⟨rfl, hlen, ?_⟩⟩
        · simp [pmd_pre_compact_reset, hlen]
        · rw [hrecs, hp1 hc0]
          rw [List.countP_append, List.countP_append]
          have h1 : ((if latestGE1001 then [MdcRec.version latest] else [])
              : List MdcRec).countP (fun r => isOcreate r) = 0 := by
            cases latestGE1001 <;> simp [isOcreate]
          have h2 : ([MdcRec.oidckpt cinfo.mmi_lckpt] : List MdcRec).countP
              (fun r => isOcreate r) = 0 := by simp [isOcreate]
          have h3 : ((cinfo.mmi_obj.filter notMdc0log).map MdcRec.ocreate
              ).countP (fun r => isOcreate r)
              = (cinfo.mmi_obj.filter notMdc0log).length := by
            rw [List.countP_map]
            rw [List.countP_eq_length]
            intro a _
            simp [isOcreate]
          rw [h1, h2, h3, hall]
          simpa using hlen

theorem mdc_compact_pcc_cobj_eq_committed_witness :
    ((⟨2, 0, 0, 0, 2⟩ : PcoCnt).pcc_cobj = (c2Cinfo.mmi_obj.length : Int))
    ∧ 2 = c2Cinfo.mmi_obj.length
    ∧ 2 = ([MdcRec.version 5, .oidckpt 0, .ocreate c1LayoutA,
            .ocreate c1LayoutB] : List MdcRec).countP
            (fun r => isOcreate r) := by
  have h := mdc_compact_pcc_cobj_eq_committed 1 true 5 c2Cinfo [] [] c2Ocs
    [MdcRec.version 5, .oidckpt 0, .ocreate c1LayoutA, .ocreate c1LayoutB]
    2 ⟨2, 0, 0, 0, 2⟩ (by decide) (by simp) (by rfl)
  exact ⟨h.1, (h.2 (by decide)).2.1, (h.2 (by decide)).2.2⟩

/-! ## E  Id generation: `pmd_alloc_idgen` -/

instance : Inhabited MdcInfo :=
  ⟨⟨[], [], 0, 0, 0, ⟨0, 0, 0, 0, 0⟩, ⟨0, 0, 0, 0, 0⟩⟩⟩

/-- The fields of `pmd_mda_info` that id generation touches: the slot
count, the selector cursor and table, and the per-slot infos.  The cursor
is an `atomic_t` whose wrap at 2^32 is unmodelled. -/
structure PmdMda where
  mdi_slotvcnt : Nat
  mdi_tbl_idx  : Nat
  mdi_tbl      : List Nat
  mdi_slotv    : List MdcInfo
deriving DecidableEq, Repr

structure IdgenOut where
  result   : Except Err Nat
  mda      : PmdMda
  appended : List MdcRec
deriving Repr

/-- `pmd_alloc_idgen` with `logIdckpt` the outcome of the `pmd_log_idckpt`
append (consulted only when the new id needs a checkpoint). -/
def pmd_alloc_idgen (mda : PmdMda) (otype : Nat) (logIdckpt : Option Err) :
    IdgenOut :=
  if mda.mdi_slotvcnt < 2 then ⟨.error Err.ENOSPC, mda, []⟩
  else
    let tidx := (mda.mdi_tbl_idx + 1) % MDC_TBL_SZ
    let cslot := mda.mdi_tbl.getD tidx 0
    let cinfo := mda.mdi_slotv.getD cslot default
    let mda1 := { mda with mdi_tbl_idx := mda.mdi_tbl_idx + 1 }
    let objid := objid_make (cinfo.mmi_luniq + 1) otype cslot
    if objid_ckpt objid then
      match logIdckpt with
      | some e => ⟨.error e, mda1, []⟩
      | none =>
          let cinfo2 := { cinfo with
                            mmi_lckpt := objid
                            mmi_luniq := cinfo.mmi_luniq + 1 }
          ⟨.ok objid,
           { mda1 with mdi_slotv := mda1.mdi_slotv.set cslot cinfo2 },
           [.oidckpt objid]⟩
    else
      let cinfo2 := { cinfo with mmi_luniq := cinfo.mmi_luniq + 1 }
      ⟨.ok objid,
       { mda1 with mdi_slotv := mda1.mdi_slotv.set cslot cinfo2 },
       []⟩

theorem objid_uniq_make (u t s : Nat) (ht : t < 16) (hs : s < 256) :
    objid_uniq (objid_make u t s) = u := by
  simp only [objid_uniq, objid_make]
  omega

/-- Claim C3 — in id generation for obj_alloc, the new id is `luniq+1` (as
its uniq) for the chosen slot; exactly when that id has `objid_ckpt` set
(uniq a multiple of `OBJID_UNIQ_DELTA`) an OIDCKPT record carrying the new
id is appended, and `lckpt` becomes the new id only on append success; and
`luniq` is advanced to the new value only if the checkpoint (when needed)
succeeded, otherwise `luniq` and `lckpt` keep their old values, no record
is appended, the id is not issued and the error is returned. -/
theorem alloc_idgen_ckpt_gate (mda : PmdMda) (otype : Nat)
    (logIdckpt : Option Err)
    (hcnt : 2 ≤ mda.mdi_slotvcnt)
    (ht : otype < 16)
    (hs : mda.mdi_tbl.getD ((mda.mdi_tbl_idx + 1) % MDC_TBL_SZ) 0 < 256) :
    let cslot := mda.mdi_tbl.getD ((mda.mdi_tbl_idx + 1) % MDC_TBL_SZ) 0
    let cinfo := mda.mdi_slotv.getD cslot default
    let objid := objid_make (cinfo.mmi_luniq + 1) otype cslot
    let mda1 := { mda with mdi_tbl_idx := mda.mdi_tbl_idx + 1 }
    objid_uniq objid = cinfo.mmi_luniq + 1
    ∧ (objid_ckpt objid = ((cinfo.mmi_luniq + 1) % OBJID_UNIQ_DELTA = 0))
    ∧ (objid_ckpt objid = true → logIdckpt = none →
        pmd_alloc_idgen mda otype logIdckpt
          = ⟨.ok objid,
             { mda1 with
                 mdi_slotv := mda1.mdi_slotv.set cslot
                   { cinfo with
                       mmi_lckpt := objid
                       mmi_luniq := cinfo.mmi_luniq + 1 } },
             [.oidckpt objid]⟩)
    ∧ (∀ e, objid_ckpt objid = true → logIdckpt = some e →
        pmd_alloc_idgen mda otype logIdckpt = ⟨.error e, mda1, []⟩)
    ∧ (objid_ckpt objid = false →
        pmd_alloc_idgen mda otype logIdckpt
          = ⟨.ok objid,
             { mda1 with
                 mdi_slotv := mda1.mdi_slotv.set cslot
                   { cinfo with mmi_luniq := cinfo.mmi_luniq + 1 } },
             []⟩) := by
  intro cslot cinfo objid mda1
  have hnotlt : ¬ mda.mdi_slotvcnt < 2 := Nat.not_lt.mpr hcnt
  refine ⟨objid_uniq_make _ _ _ ht hs, ?_, ?_, ?_, ?_⟩
  · simp [objid_ckpt, objid_uniq_make _ _ _ ht hs]
  · intro hck hlog
    simp only [pmd_alloc_idgen, if_neg hnotlt]
    rw [hlog]
    simp only [hck]
    rfl
  · intro e hck hlog
    simp only [pmd_alloc_idgen, if_neg hnotlt]
    rw [hlog]
    simp only [hck]
    rfl
  · intro hck
    simp only [pmd_alloc_idgen, if_neg hnotlt]
    simp only [hck]
    rfl

/-- Selector state for the idgen witness: the cursor lands on slot 1, whose
`luniq` is 255, so the new id (uniq 256) is a checkpoint id. -/
def c3Mda : PmdMda :=
  ⟨2, 0, List.replicate MDC_TBL_SZ 1,
   [default, { (default : MdcInfo) with mmi_luniq := 255 }]⟩

theorem alloc_idgen_ckpt_gate_witness :
    objid_uniq (objid_make 256 OMF_OBJ_MBLOCK 1) = 256
    ∧ pmd_alloc_idgen c3Mda OMF_OBJ_MBLOCK (some Err.EFBIG)
        = ⟨.error Err.EFBIG, { c3Mda with mdi_tbl_idx := 1 }, []⟩ := by
  have h := alloc_idgen_ckpt_gate c3Mda OMF_OBJ_MBLOCK (some Err.EFBIG)
    (by decide) (by decide) (by decide)
  exact ⟨h.1, h.2.2.2.1 Err.EFBIG (by decide) rfl⟩

/-! ## F  MDC allocator: `pmd_mdc_alloc` -/

structure MdcAllocOracle where
  validate : Option Err
  recbuf   : Bool
  alloc1   : Option Err
  alloc2   : Option Err
  erase1   : Option Err
  erase2   : Option Err
  commit1  : Option Err
  commit2  : Option Err
  mdcopen  : Option Err
  verrec   : Option Err
deriving DecidableEq, Repr

/-- Outcome of `pmd_mdc_alloc`: the error, MDC0's published `luniq` and the
published `slotvcnt` after the call, and the logids for which an mlog
allocation was attempted through `pmd_obj_alloc_cmn`. -/
structure MdcAllocOut where
  result        : Option Err
  mmi_luniq     : Nat
  mdi_slotvcnt  : Nat
  allocAttempts : List Nat
deriving DecidableEq, Repr

/-- `pmd_mdc_alloc` over MDC0's `luniq` and the published `slotvcnt`, with
oracles for the MDC0 validation pass, the recbuf allocation, the paired
mlog allocations/erases/commits, the MDC open, and the VERSION record. -/
def pmd_mdc_alloc (luniq slotvcnt iter : Nat) (latestGE1001 : Bool)
    (o : MdcAllocOracle) : MdcAllocOut :=
  match o.validate with
  | some e => ⟨some e, luniq, slotvcnt, []⟩
  | none =>
      if MDC_SLOTS - 1 ≤ luniq then ⟨some Err.ENOSPC, luniq, slotvcnt, []⟩
      else
        let mdcslot := luniq + 1
        if !o.recbuf then ⟨some Err.ENOMEM, luniq, slotvcnt, []⟩
        else
          let pdcnt := 1
          let reverse := pdcnt % 2 = 0 && (iter * 2 / pdcnt) % 2 = 1
          let logid1 := logid_make (2 * mdcslot) 0
          let logid2 := logid_make (2 * mdcslot + 1) 0
          let firstId := if reverse then logid2 else logid1
          let secondId := if reverse then logid1 else logid2
          match o.alloc1 with
          | some e => ⟨some e, luniq, slotvcnt, [firstId]⟩
          | none =>
          match o.alloc2 with
          | some e => ⟨some e, luniq, slotvcnt, [firstId, secondId]⟩
          | none =>
          match o.erase1 with
          | some e => ⟨some e, luniq, slotvcnt, [firstId, secondId]⟩
          | none =>
          match o.erase2 with
          | some e => ⟨some e, luniq, slotvcnt, [firstId, secondId]⟩
          | none =>
          match o.commit1 with
          | some e => ⟨some e, luniq, slotvcnt, [firstId, secondId]⟩
          | none =>
          match o.commit2 with
          | some e => ⟨some e, luniq, slotvcnt, [firstId, secondId]⟩
          | none =>
          match o.mdcopen with
          | some e => ⟨some e, luniq, slotvcnt, [firstId, secondId]⟩
          | none =>
          match (if latestGE1001 then o.verrec else none) with
          | some e => ⟨some e, luniq, slotvcnt, [firstId, secondId]⟩
          | none => ⟨none, mdcslot, mdcslot + 1, [firstId, secondId]⟩

/-- All oracles succeed. -/
def c7AllOk : MdcAllocOracle :=
  ⟨none, true, none, none, none, none, none, none, none, none⟩

/-- Claim C7, counterexample — with `slotvcnt = MDC_SLOTS - 1 = 255`
(MDC0's `luniq = 254`, the claimed reserved slot `luniq+1 = 255` being
`≥ MDC_SLOTS - 1`), `pmd_mdc_alloc` does not return the no-space error: the
guard compares `luniq` itself against `MDC_SLOTS - 1`, so the call proceeds
and allocates the last slot 255, publishing `slotvcnt = 256`. -/
theorem mdc_alloc_at_slotvcnt_255_succeeds :
    pmd_mdc_alloc 254 255 0 true c7AllOk
      = ⟨none, 255, 256, [logid_make 510 0, logid_make 511 0]⟩ := by rfl

/-- Claim C7, amended — `pmd_mdc_alloc` called when `slotvcnt == MDC_SLOTS`
(equivalently, when MDC0's `luniq ≥ MDC_SLOTS - 1`, i.e. the slot to
reserve `luniq+1` would be `≥ MDC_SLOTS`) returns the no-space error
without allocating anything and without changing `luniq` or `slotvcnt`;
the MDC0 validation pass must have succeeded before the guard is
reached. -/
theorem mdc_alloc_full_returns_nospace (luniq slotvcnt iter : Nat)
    (latestGE1001 : Bool) (o : MdcAllocOracle)
    (hval : o.validate = none)
    (hfull : MDC_SLOTS - 1 ≤ luniq) :
    pmd_mdc_alloc luniq slotvcnt iter latestGE1001 o
      = ⟨some Err.ENOSPC, luniq, slotvcnt, []⟩ := by
  simp only [pmd_mdc_alloc, hval]
  rw [if_pos hfull]

theorem mdc_alloc_full_returns_nospace_witness :
    pmd_mdc_alloc 255 256 0 true c7AllOk
      = ⟨some Err.ENOSPC, 255, 256, []⟩ :=
  mdc_alloc_full_returns_nospace 255 256 0 true c7AllOk (by rfl) (by decide)

/-! ## E  Object allocation: `pmd_obj_alloc_cmn`

Media-class encodings (`mpool_mc_isvalid`, `mpool_mc_isbe`,
`mpool_mc_first_get`) are modelled from the spec (§4.E step 3): two primary
classes 0 (staging) and 1 (capacity), and their best-effort variants 2 and
3 which fall back through the following classes. -/

def mpool_mc_isvalid (mclassp : Nat) : Bool := mclassp < 4

def mpool_mc_isbe (mclassp : Nat) : Bool := 2 ≤ mclassp && mclassp < 4

def mpool_mc_first_get (mclassp : Nat) : Nat :=
  if 2 ≤ mclassp then mclassp - 2 else mclassp

/-- `pmd_alloc_argcheck` (the `mp` null check has no counterpart). -/
def pmd_alloc_argcheck (objid otype mclassp : Nat) : Option Err :=
  if ¬ (objtype_user otype && mpool_mc_isvalid mclassp) then some Err.EINVAL
  else if objid ≠ 0 && decide (objid_type objid ≠ otype) then some Err.EINVAL
  else none

/-- `pmd_realloc_idvalidate`: never realloc MDC0 objects; the slot must be
in use and the uniq not above the slot's `luniq`. -/
def pmd_realloc_idvalidate (mda : PmdMda) (objid : Nat) : Option Err :=
  let cslot := objid_slot objid
  let uniq := objid_uniq objid
  if cslot = 0 then some Err.EINVAL
  else if mda.mdi_slotvcnt ≤ cslot then some Err.EINVAL
  else
    let cinfo := mda.mdi_slotv.getD cslot default
    if cinfo.mmi_luniq < uniq then some Err.EINVAL else none

/-- External allocation environment: which media classes have a device
(`mc_pdmc >= 0`), that device's handle, and its zone size in pages. -/
structure AllocEnv where
  mcAvail : Nat → Bool
  mcPdmc  : Nat → Nat
  zonepg  : Nat → Nat

/-- Oracle outcomes for one `pmd_obj_alloc_cmn` call: per-attempt layout
shell allocation (`ecio_layout_alloc`) and zone allocation
(`pmd_layout_alloc`, wrapping `smap_alloc`; its alignment computation only
shapes the request and is absorbed by the oracle), and the idgen
checkpoint append. -/
structure AllocCmnOracle where
  shellOk   : Nat → Bool
  zoneRes   : Nat → Except Err Nat
  logIdckpt : Option Err

/-- The media-class selection loop at the top of the `retry:` label. -/
def pmd_alloc_mcsel (beffort : Bool) (mcAvail : Nat → Bool) :
    Nat → Nat → Option Nat
  | 0, _ => none
  | fuel + 1, mclassp =>
      if mcAvail mclassp then some mclassp
      else if ¬ beffort || MP_MED_NUMBER ≤ mclassp + 1 then none
      else pmd_alloc_mcsel beffort mcAvail fuel (mclassp + 1)

/-- `pmd_layout_calculate`: one zone when no capacity target, else the
ceiling of the target over the zone size (`zonepg << PAGE_SHIFT`,
PAGE_SHIFT = 12). -/
def pmd_layout_calculate (captgt zonepg : Nat) : Nat :=
  if captgt = 0 then 1 else 1 + (captgt - 1) / (zonepg * 4096)

/-- The `retry:` loop of `pmd_obj_alloc_cmn`: select a media class, build a
layout shell, try to allocate zones; on failure retry while `retries`
lasts, then advance the class for best-effort requests.  `fuel` bounds the
structurally-decreasing recursion; the callers pass enough for the loop's
at most `1 + retries` iterations per class (fuel exhaustion returns an
error with no layout, like retry exhaustion).  Returns the result and the
next oracle attempt index. -/
def pmd_alloc_retry_loop (env : AllocEnv) (oc : AllocCmnOracle)
    (objid otype captgt : Nat) (spare beffort : Bool) :
    Nat → Nat → Int → Int → Nat → Except Err Layout × Nat
  | 0, _, _, _, attempt => (.error Err.ENOSPC, attempt)
  | fuel + 1, mclassp, retries, flush, attempt =>
      match pmd_alloc_mcsel beffort env.mcAvail (MP_MED_NUMBER + 1) mclassp with
      | none => (.error Err.ENOENT, attempt)
      | some mc =>
          let zcnt := pmd_layout_calculate captgt (env.zonepg mc)
          if ¬ oc.shellOk attempt then (.error Err.ENOMEM, attempt + 1)
          else
            match oc.zoneRes attempt with
            | .ok zaddr =>
                (.ok { eld_objid := objid, eld_gen := 0, eld_mblen := 0,
                       eld_zcnt := zcnt, eld_pdh := env.mcPdmc mc,
                       eld_zaddr := zaddr, eld_state := lytUncommitted,
                       eld_refcnt := 2, eld_isdel := false },
                 attempt + 1)
            | .error e =>
                if 0 < retries then
                  pmd_alloc_retry_loop env oc objid otype captgt spare beffort
                    fuel mc (retries - 1) flush (attempt + 1)
                else if beffort && decide (mc + 1 < MP_MED_NUMBER) then
                  let retries2 : Int :=
                    if mc + 1 = MP_MED_NUMBER - 1 then 1024 else retries - 1
                  let flush2 : Int :=
                    if mc + 1 = MP_MED_NUMBER - 1 then 128 else flush
                  pmd_alloc_retry_loop env oc objid otype captgt spare beffort
                    fuel (mc + 1) retries2 flush2 (attempt + 1)
                else (.error e, attempt + 1)

/-- Result of `pmd_obj_alloc_cmn`: outcome, the out-layout, the MDA state. -/
structure AllocCmnOut where
  result : Option Err
  layout : Option Layout
  mda    : PmdMda

/-- The tail of `pmd_obj_alloc_cmn` after the retry loop returned: on
success the per-MDC stats update, the realloc committed-tree check, and
the uncommitted-tree insert with its stats rollback and layout free on
failure; on a loop failure the error with a NULL out-layout. -/
def pmd_obj_alloc_cmn_post (mda : PmdMda) (objid : Nat) (realloc : Bool) :
    Except Err Layout → AllocCmnOut
  | .error e => ⟨some e, none, mda⟩
  | .ok layout =>
      let cslot := objid_slot objid
      let cinfo := mda.mdi_slotv.getD cslot default
      let cinfoA := { cinfo with
        mmi_stats := pmd_update_mdc_stats layout cinfo.mmi_stats
                       .PMD_OBJ_ALLOC }
      let err1 : Option Err :=
        if realloc && (objid_to_layout_search_mdc cinfoA.mmi_obj objid).isSome
        then some Err.EEXIST else none
      match err1 with
      | some e =>
          let cinfoB := { cinfoA with
            mmi_stats := pmd_update_mdc_stats layout cinfoA.mmi_stats
                           .PMD_OBJ_ABORT }
          ⟨some e, none,
           { mda with mdi_slotv := mda.mdi_slotv.set cslot cinfoB }⟩
      | none =>
          match objid_to_layout_insert_mdc cinfoA.mmi_uncobj layout with
          | (some _, _) =>
              let cinfoB := { cinfoA with
                mmi_stats := pmd_update_mdc_stats layout cinfoA.mmi_stats
                               .PMD_OBJ_ABORT }
              ⟨some Err.EEXIST, none,
               { mda with mdi_slotv := mda.mdi_slotv.set cslot cinfoB }⟩
          | (none, unco2) =>
              let cinfoC := { cinfoA with mmi_uncobj := unco2 }
              ⟨none, some layout,
               { mda with mdi_slotv := mda.mdi_slotv.set cslot cinfoC }⟩

/-- `pmd_obj_alloc_cmn` after a generated or validated objid: media-class
shaping, the retry loop, then the post-processing above. -/
def pmd_obj_alloc_cmn_rest (mda : PmdMda) (env : AllocEnv)
    (oc : AllocCmnOracle) (objid otype captgt : Nat) (spare : Bool)
    (mclassp : Nat) (realloc : Bool) (fuel : Nat) : AllocCmnOut :=
  let beffort := mpool_mc_isbe mclassp
  let mclassp2 := mpool_mc_first_get mclassp
  let fallback := beffort && decide (mclassp2 < MP_MED_NUMBER - 1)
  let retries : Int := if fallback then 8 else 1024
  let flush : Int := if fallback then 0 else 128
  pmd_obj_alloc_cmn_post mda objid realloc
    (pmd_alloc_retry_loop env oc objid otype captgt spare beffort
       fuel mclassp2 retries flush 0).1

/-- `pmd_obj_alloc_cmn`: argument check, id generation (objid 0) or realloc
validation, then the common allocation path. -/
def pmd_obj_alloc_cmn (mda : PmdMda) (env : AllocEnv) (oc : AllocCmnOracle)
    (objid otype captgt : Nat) (spare : Bool) (mclassp : Nat)
    (realloc : Bool) (fuel : Nat) : AllocCmnOut :=
  match pmd_alloc_argcheck objid otype mclassp with
  | some e => ⟨some e, none, mda⟩
  | none =>
      if objid = 0 then
        let r := pmd_alloc_idgen mda otype oc.logIdckpt
        match r.result with
        | .error e => ⟨some e, none, r.mda⟩
        | .ok objid2 =>
            pmd_obj_alloc_cmn_rest r.mda env oc objid2 otype captgt spare
              mclassp realloc fuel
      else if realloc then
        match pmd_realloc_idvalidate mda objid with
        | some e => ⟨some e, none, mda⟩
        | none =>
            pmd_obj_alloc_cmn_rest mda env oc objid otype captgt spare
              mclassp realloc fuel
      else
        pmd_obj_alloc_cmn_rest mda env oc objid otype captgt spare mclassp
          realloc fuel

/-- `pmd_obj_alloc`. -/
def pmd_obj_alloc (mda : PmdMda) (env : AllocEnv) (oc : AllocCmnOracle)
    (otype captgt : Nat) (spare : Bool) (mclassp : Nat) (fuel : Nat) :
    AllocCmnOut :=
  pmd_obj_alloc_cmn mda env oc 0 otype captgt spare mclassp false fuel

/-- `pmd_obj_realloc`. -/
def pmd_obj_realloc (mda : PmdMda) (env : AllocEnv) (oc : AllocCmnOracle)
    (objid captgt : Nat) (spare : Bool) (mclassp : Nat) (fuel : Nat) :
    AllocCmnOut :=
  if ¬ pmd_objid_isuser objid then ⟨some Err.EINVAL, none, mda⟩
  else
    pmd_obj_alloc_cmn mda env oc objid (objid_type objid) captgt spare
      mclassp true fuel

/-! ## Theorems about allocation (claim C10) -/

theorem update_stats_alloc_abort (layout : Layout) (pms : MdcStats) :
    pmd_update_mdc_stats layout
      (pmd_update_mdc_stats layout pms .PMD_OBJ_ALLOC) .PMD_OBJ_ABORT
      = pms := by
  obtain ⟨a, b, c, d, e⟩ := pms
  simp only [pmd_update_mdc_stats]
  split_ifs <;> simp_all [add_sub_cancel_right]

theorem map_stats_set (sv : List MdcInfo) :
    ∀ (i : Nat) (c : MdcInfo),
      c.mmi_stats = (sv.getD i default).mmi_stats →
      (sv.set i c).map MdcInfo.mmi_stats = sv.map MdcInfo.mmi_stats := by
  induction sv with
  | nil => intro i c _; simp
  | cons hd tl ih =>
      intro i c h
      cases i with
      | zero =>
          simp only [List.getD_cons_zero] at h
          simp [List.set_cons_zero, h]
      | succ n =>
          simp only [List.getD_cons_succ] at h
          simp [List.set_cons_succ, ih n c h]

theorem idgen_stats_preserved (mda : PmdMda) (otype : Nat) (lo : Option Err) :
    (pmd_alloc_idgen mda otype lo).mda.mdi_slotv.map MdcInfo.mmi_stats
      = mda.mdi_slotv.map MdcInfo.mmi_stats := by
  simp only [pmd_alloc_idgen]
  split
  · rfl
  · split
    · split
      · rfl
      · exact map_stats_set _ _ _ rfl
    · exact map_stats_set _ _ _ rfl

theorem alloc_cmn_post_props (mda : PmdMda) (objid : Nat) (realloc : Bool)
    (loopRes : Except Err Layout) :
    ((pmd_obj_alloc_cmn_post mda objid realloc loopRes).result = none
       ↔ (pmd_obj_alloc_cmn_post mda objid realloc loopRes).layout.isSome
           = true)
    ∧ ((pmd_obj_alloc_cmn_post mda objid realloc loopRes).result ≠ none →
        (pmd_obj_alloc_cmn_post mda objid realloc
            loopRes).mda.mdi_slotv.map MdcInfo.mmi_stats
          = mda.mdi_slotv.map MdcInfo.mmi_stats) := by
  cases loopRes with
  | error e => simp [pmd_obj_alloc_cmn_post]
  | ok layout =>
      simp only [pmd_obj_alloc_cmn_post]
      split
      · constructor
        · simp
        · intro _
          exact map_stats_set _ _ _ (update_stats_alloc_abort _ _)
      · split
        · constructor
          · simp
          · intro _
            exact map_stats_set _ _ _ (update_stats_alloc_abort _ _)
        · simp

theorem alloc_cmn_rest_props (mda : PmdMda) (env : AllocEnv)
    (oc : AllocCmnOracle) (objid otype captgt : Nat) (spare : Bool)
    (mclassp : Nat) (realloc : Bool) (fuel : Nat) :
    ((pmd_obj_alloc_cmn_rest mda env oc objid otype captgt spare mclassp
        realloc fuel).result = none
       ↔ (pmd_obj_alloc_cmn_rest mda env oc objid otype captgt spare mclassp
            realloc fuel).layout.isSome = true)
    ∧ ((pmd_obj_alloc_cmn_rest mda env oc objid otype captgt spare mclassp
          realloc fuel).result ≠ none →
        (pmd_obj_alloc_cmn_rest mda env oc objid otype captgt spare mclassp
            realloc fuel).mda.mdi_slotv.map MdcInfo.mmi_stats
          = mda.mdi_slotv.map MdcInfo.mmi_stats) :=
  alloc_cmn_post_props mda objid realloc _

theorem alloc_cmn_props (mda : PmdMda) (env : AllocEnv) (oc : AllocCmnOracle)
    (objid otype captgt : Nat) (spare : Bool) (mclassp : Nat)
    (realloc : Bool) (fuel : Nat) :
    ((pmd_obj_alloc_cmn mda env oc objid otype captgt spare mclassp realloc
        fuel).result = none
       ↔ (pmd_obj_alloc_cmn mda env oc objid otype captgt spare mclassp
            realloc fuel).layout.isSome = true)
    ∧ ((pmd_obj_alloc_cmn mda env oc objid otype captgt spare mclassp realloc
          fuel).result ≠ none →
        (pmd_obj_alloc_cmn mda env oc objid otype captgt spare mclassp
            realloc fuel).mda.mdi_slotv.map MdcInfo.mmi_stats
          = mda.mdi_slotv.map MdcInfo.mmi_stats) := by
  simp only [pmd_obj_alloc_cmn]
  cases hac : pmd_alloc_argcheck objid otype mclassp with
  | some e =>
      constructor
      · simp
      · intro _; rfl
  | none =>
      by_cases hz : objid = 0
      · rw [if_pos hz]
        cases hres : (pmd_alloc_idgen mda otype oc.logIdckpt).result with
        | error e =>
            simp only [hres]
            constructor
            · simp
            · intro _
              exact idgen_stats_preserved mda otype oc.logIdckpt
        | ok objid2 =>
            simp only [hres]
            obtain ⟨h1, h2⟩ := alloc_cmn_rest_props
              (pmd_alloc_idgen mda otype oc.logIdckpt).mda env oc objid2
              otype captgt spare mclassp realloc fuel
            refine ⟨h1, fun hne => ?_⟩
            rw [h2 hne, idgen_stats_preserved]
      · rw [if_neg hz]
        cases realloc with
        | true =>
            rw [if_pos rfl]
            cases hrv : pmd_realloc_idvalidate mda objid with
            | some e =>
                constructor
                · simp
                · intro _; rfl
            | none =>
                exact alloc_cmn_rest_props mda env oc objid otype captgt
                  spare mclassp true fuel
        | false =>
            rw [if_neg (by simp)]
            exact alloc_cmn_rest_props mda env oc objid otype captgt spare
              mclassp false fuel

/-- Claim C10 — for every call to the object allocation entry points
(`pmd_obj_alloc_cmn` and `pmd_obj_realloc`; `pmd_obj_alloc` is the cmn
path at objid 0), the out-layout is non-NULL iff the call returns success,
and on every failure path — argument check, id generation, realloc
validation, media-class selection, zone allocation, or duplicate detection
in the committed/uncommitted trees — the out-layout is NULL and any
per-MDC stats update already applied has been undone (every slot's stats
equal their values at entry). -/
theorem obj_alloc_out_layout_iff_success (mda : PmdMda) (env : AllocEnv)
    (oc : AllocCmnOracle) (objid otype captgt : Nat) (spare : Bool)
    (mclassp : Nat) (realloc : Bool) (fuel : Nat) :
    ((pmd_obj_alloc_cmn mda env oc objid otype captgt spare mclassp realloc
        fuel).result = none
       ↔ (pmd_obj_alloc_cmn mda env oc objid otype captgt spare mclassp
            realloc fuel).layout.isSome = true)
    ∧ ((pmd_obj_alloc_cmn mda env oc objid otype captgt spare mclassp realloc
          fuel).result ≠ none →
        (pmd_obj_alloc_cmn mda env oc objid otype captgt spare mclassp
            realloc fuel).mda.mdi_slotv.map MdcInfo.mmi_stats
          = mda.mdi_slotv.map MdcInfo.mmi_stats)
    ∧ ((pmd_obj_realloc mda env oc objid captgt spare mclassp fuel).result
         = none
       ↔ (pmd_obj_realloc mda env oc objid captgt spare mclassp
            fuel).layout.isSome = true)
    ∧ ((pmd_obj_realloc mda env oc objid captgt spare mclassp fuel).result
         ≠ none →
        (pmd_obj_realloc mda env oc objid captgt spare mclassp
            fuel).mda.mdi_slotv.map MdcInfo.mmi_stats
          = mda.mdi_slotv.map MdcInfo.mmi_stats) := by
  obtain ⟨h1, h2⟩ := alloc_cmn_props mda env oc objid otype captgt spare
    mclassp realloc fuel
  by_cases hu : pmd_objid_isuser objid
  · have hru : pmd_obj_realloc mda env oc objid captgt spare mclassp fuel
        = pmd_obj_alloc_cmn mda env oc objid (objid_type objid) captgt spare
            mclassp true fuel := by
      simp [pmd_obj_realloc, hu]
    obtain ⟨h3, h4⟩ := alloc_cmn_props mda env oc objid (objid_type objid)
      captgt spare mclassp true fuel
    rw [hru]
    exact ⟨h1, h2, h3, h4⟩
  · have hru : pmd_obj_realloc mda env oc objid captgt spare mclassp fuel
        = ⟨some Err.EINVAL, none, mda⟩ := by
      simp [pmd_obj_realloc, hu]
    rw [hru]
    refine ⟨h1, h2, by simp, fun _ => rfl⟩

/-- Environment with no media class available: allocation fails with
`ENOENT` after a successful id generation. -/
def c10Env : AllocEnv := ⟨fun _ => false, fun _ => 0, fun _ => 1⟩

def c10Oc : AllocCmnOracle := ⟨fun _ => true, fun _ => .error Err.ENOSPC, none⟩

theorem obj_alloc_out_layout_iff_success_witness :
    ((pmd_obj_alloc_cmn c3Mda c10Env c10Oc 0 OMF_OBJ_MBLOCK 0 false 1 false
        1).result = none
       ↔ (pmd_obj_alloc_cmn c3Mda c10Env c10Oc 0 OMF_OBJ_MBLOCK 0 false 1
            false 1).layout.isSome = true)
    ∧ ((pmd_obj_alloc_cmn c3Mda c10Env c10Oc 0 OMF_OBJ_MBLOCK 0 false 1
          false 1).mda.mdi_slotv.map MdcInfo.mmi_stats
        = c3Mda.mdi_slotv.map MdcInfo.mmi_stats) :=
  have h := obj_alloc_out_layout_iff_success c3Mda c10Env c10Oc 0
    OMF_OBJ_MBLOCK 0 false 1 false 1
  ⟨h.1, h.2.1 (by decide)⟩

end Mpool
